import Mathlib

/-!
Verification of the dual-provider image request resolver of the
openrouter-mcp server (src/handlers/tools.ts, src/server.ts, src/config.ts).

The TypeScript handlers are shallowly embedded as pure Lean functions.
Network calls are resolved against an explicit "world" record that fixes the
outcome of each upstream request, and every observable side effect (temporary
file creation and deletion, provider requests and their resolutions) is
recorded in an event trace returned alongside the textual result.  JavaScript
exceptions are modelled with `Except String`; JavaScript string truthiness
(`undefined`/`""` are falsy) is modelled explicitly on `Option String`.
-/

/-- JavaScript truthiness of an optional string: `undefined` and `""` are
falsy, every other string is truthy. -/
def truthy : Option String → Bool
  | none => false
  | some s => !(s == "")

/-- Value semantics of the JavaScript `a || b` operator on optional strings:
returns `a` when `a` is truthy, otherwise `b`. -/
def jsOr (a b : Option String) : Option String :=
  if truthy a then a else b

/-- Process environment as read by the handlers: `GEMINI_API_KEY`,
`HTTP_PROXY`, `HTTPS_PROXY`, `OPENROUTER_API_KEY`.  The OpenRouter key is
recorded although the handlers never branch on it: `src/config.ts` only
prints a warning when it is absent and still sends the request headers. -/
structure Env where
  geminiApiKey : Option String
  httpProxy : Option String
  httpsProxy : Option String
  openrouterApiKey : Option String
  deriving DecidableEq

/-- Proxy resolution of the fallback handlers:
`process.env.HTTP_PROXY || process.env.HTTPS_PROXY`. -/
def envProxy (env : Env) : Option String :=
  jsOr env.httpProxy env.httpsProxy

/-- Field `inlineData` of one part of a parsed Gemini response
(`part.inlineData.data`, absent fields as `none`). -/
structure GeminiInline where
  data : Option String
  deriving DecidableEq

/-- One entry of `candidates[0].content.parts`. -/
structure GeminiPart where
  inlineData : Option GeminiInline
  deriving DecidableEq

/-- Field `content` of a Gemini candidate. -/
structure GeminiContent where
  parts : List GeminiPart
  deriving DecidableEq

/-- One entry of `candidates`. -/
structure GeminiCandidate where
  content : Option GeminiContent
  deriving DecidableEq

/-- Parsed body of a 2xx Gemini response (`response.data`).  A missing
`candidates` field behaves exactly like an empty array in the handler
(`responseData.candidates && responseData.candidates[0]` is falsy either
way), so it is modelled as the empty list. -/
structure GeminiResponse where
  candidates : List GeminiCandidate
  deriving DecidableEq

/-- Loop of tools.ts lines 521-527 / 698-704: first part whose
`inlineData.data` is truthy (an empty string is falsy in JS and is
skipped). -/
def firstInlineData : List GeminiPart → Option String
  | [] => none
  | p :: ps =>
    match p.inlineData with
    | some i =>
      match i.data with
      | some d => if d == "" then firstInlineData ps else some d
      | none => firstInlineData ps
    | none => firstInlineData ps

/-- Image extraction of the fallback handlers (tools.ts lines 515-527 and
692-704): guard `candidates && candidates[0] && candidates[0].content &&
candidates[0].content.parts`, then scan the parts. -/
def extractImageData (r : GeminiResponse) : Option String :=
  match r.candidates with
  | [] => none
  | c :: _ =>
    match c.content with
    | none => none
    | some ct => firstInlineData ct.parts

/-- Token usage block of an OpenRouter response. -/
structure Usage where
  prompt_tokens : Nat
  completion_tokens : Nat
  total_tokens : Nat
  deriving DecidableEq

/-- Field `image_url` of one response image (`img.image_url?.url`). -/
structure ORImageUrl where
  url : Option String
  deriving DecidableEq

/-- One entry of `choices[0].message.images`. -/
structure ORImage where
  image_url : Option ORImageUrl
  deriving DecidableEq

/-- The url the save helper reads from a response image:
`img.image_url?.url || ""`. -/
def imgUrlOf (img : ORImage) : String :=
  match img.image_url with
  | none => ""
  | some iu =>
    match iu.url with
    | none => ""
    | some u => u

/-- Message of an OpenRouter choice: `content` text and the optional
`images` array (`message.images || []`). -/
structure ORMessage where
  content : String
  images : Option (List ORImage)
  deriving DecidableEq

/-- One entry of `choices`. -/
structure ORChoice where
  message : ORMessage
  deriving DecidableEq

/-- Parsed body of a 2xx OpenRouter chat-completions response. -/
structure ORResponse where
  choices : List ORChoice
  usage : Usage
  deriving DecidableEq

/-- Access step `response.data.choices[0].message` of the handlers: a
transport error propagates, and indexing an empty `choices` array throws a
TypeError inside the surrounding try block. -/
def orOutcome : Except String ORResponse → Except String (ORMessage × Usage)
  | .error e => .error e
  | .ok r =>
    match r.choices with
    | [] => .error "Cannot read properties of undefined"
    | c :: _ => .ok (c.message, r.usage)

/-- One block of the `content` array sent to OpenRouter. -/
inductive ContentBlock where
  | text (text : String)
  | image_url (url : String)
  deriving DecidableEq

/-- Body of an OpenRouter chat-completions request built by the handlers:
single user message whose content is `content`.  The `temperature`
passthrough is a floating-point value with no decision logic and is not
modelled. -/
structure ORRequestBody where
  model : String
  content : List ContentBlock
  max_tokens : Nat
  deriving DecidableEq

/-- One part of the single `contents` entry of a Gemini request.  For an
inline part, `source` records the reference image whose downloaded bytes are
base64-encoded into the `data` field (the embedding tracks provenance of the
payload rather than raw bytes). -/
inductive GPart where
  | text (text : String)
  | inline_data (mime_type : String) (source : String)
  deriving DecidableEq

/-- Body of a Gemini `generateContent` request (`contents:[ one entry with
these parts ]`). -/
structure GeminiBody where
  parts : List GPart
  deriving DecidableEq

/-- Gemini request body of `generateImage` (lines 490-494). -/
def geminiGenBody (prompt : String) : GeminiBody :=
  { parts := [GPart.text prompt] }

/-- Gemini request body of `editImage` (lines 659-671): the instruction plus
the base64 payload of the first reference image only. -/
def geminiEditBody (instruction firstImage : String) : GeminiBody :=
  { parts := [GPart.text instruction, GPart.inline_data "image/jpeg" firstImage] }

/-- Sources of the inline parts of a Gemini request body. -/
def inlineSources (b : GeminiBody) : List String :=
  b.parts.filterMap fun p =>
    match p with
    | GPart.inline_data _ s => some s
    | GPart.text _ => none

/-- Outcome classification of one provider attempt, used by the trace. -/
inductive AttemptTag where
  | success
  | empty
  | error
  deriving DecidableEq

/-- Observable side effects of one `generate_image` / `edit_image` call, in
execution order. -/
inductive Event where
  | tempCreate (source : String)
  | tempDelete
  | geminiAttempt (body : GeminiBody) (proxied : Bool)
  | geminiResolved (tag : AttemptTag)
  | orAttempt (body : ORRequestBody)
  | orResolved (tag : AttemptTag)
  deriving DecidableEq

/-- Validated arguments of a `generate_image` call. -/
structure GenParams where
  model : String
  prompt : String
  max_tokens : Nat
  save_directory : Option String
  deriving DecidableEq

/-- Validated arguments of an `edit_image` call. -/
structure EditParams where
  model : String
  instruction : String
  images : List String
  max_tokens : Nat
  save_directory : Option String
  deriving DecidableEq

deriving instance DecidableEq for Except

/-- Fixed outcomes of the upstream calls a `generate_image` call can make,
plus the `Date.now()` timestamp used in generated filenames. -/
structure GenWorld where
  gemini : Except String GeminiResponse
  openrouter : Except String ORResponse
  now : Nat
  deriving DecidableEq

/-- Fixed outcomes of the upstream calls an `edit_image` call can make:
`download` is the outcome of `downloadImageToTemp(images[0])`, `fileExists`
the outcome of the `readFileSync` existence check on the temp file. -/
structure EditWorld where
  download : Except String Unit
  fileExists : Bool
  gemini : Except String GeminiResponse
  openrouter : Except String ORResponse
  now : Nat
  deriving DecidableEq

/-- Prefix the save helper tests with `url.startsWith` (server.ts 126). -/
def dataImagePref : String := "data:image/"

/-- Characters the dot of the saving regex refuses to match (JS `.` without
the `s` flag; the rarely relevant U+2028/U+2029 separators are not
modelled). -/
def noNewline (c : Char) : Bool := !(c == '\n') && !(c == '\r')

/-- The character list of `"data:image/"`. -/
def dataImagePrefL : List Char := dataImagePref.toList

/-- The character list of `";base64,"`. -/
def b64markL : List Char := [';', 'b', 'a', 's', 'e', '6', '4', ',']

/-- Match of `base64Data` against the saving regex of server.ts line 91,
an anchored pattern requiring the literal data-image prefix, a nonempty
semicolon-free image type, the literal base64 marker, and a nonempty
newline-free payload reaching the end of the string.  Returns the two
capture groups. -/
def parseDataUri (s : String) : Option (String × String) :=
  let cs := s.toList
  if dataImagePrefL.isPrefixOf cs then
    let rest := cs.drop dataImagePrefL.length
    let imageType := rest.takeWhile fun c => !(c == ';')
    let after := rest.dropWhile fun c => !(c == ';')
    if imageType.isEmpty then none
    else if b64markL.isPrefixOf after then
      let payload := after.drop b64markL.length
      if payload.isEmpty then none
      else if payload.all noNewline then some (imageType.asString, payload.asString)
      else none
    else none
  else none

/-- Embedding of `saveBase64Image` (server.ts 84-114): parse the data URI,
extend the filename with the image type when it has no extension, and write
the decoded bytes to `directory/filename`.  Directory creation and the byte
write are modelled as succeeding; the returned value is the filepath
written.  The callers only pass slash-free filenames, so the `extname` test
is a dot test. -/
def saveBase64Image (base64Data directory filename : String) : Except String String :=
  match parseDataUri base64Data with
  | none => Except.error "Invalid base64 image data format"
  | some (imageType, _payload) =>
    let fname := if filename.toList.contains '.' then filename
      else filename ++ "." ++ imageType
    Except.ok (directory ++ "/" ++ fname)

/-- One entry of the value `saveResponseImages` returns. -/
structure SavedImage where
  url : String
  savedPath : Option String
  deriving DecidableEq

/-- Body of the per-image closure of `saveResponseImages` (server.ts
121-134): only urls starting with the data-image prefix are saved, and a
save failure is caught per image, leaving `savedPath` unset. -/
def processImage (saveDirectory : String) (index : Nat) (img : ORImage) : SavedImage :=
  if (imgUrlOf img).startsWith dataImagePref then
    match saveBase64Image (imgUrlOf img) saveDirectory
        ("generated_image_" ++ toString (index + 1)) with
    | Except.ok p => { url := imgUrlOf img, savedPath := some p }
    | Except.error _ => { url := imgUrlOf img, savedPath := none }
  else { url := imgUrlOf img, savedPath := none }

/-- Embedding of `saveResponseImages` (server.ts 116-135). -/
def saveResponseImages (images : List ORImage) (saveDirectory : Option String) : List SavedImage :=
  if !truthy saveDirectory || images.isEmpty then
    images.map fun img => { url := imgUrlOf img, savedPath := none }
  else
    images.mapIdx fun i img => processImage (saveDirectory.getD "") i img

/-- One line the handlers append per saved image. -/
def imageLine (index : Nat) (s : SavedImage) : String :=
  let base := "\n- Image " ++ toString (index + 1) ++ ": " ++ s.url.take 50 ++ "..."
  match s.savedPath with
  | some p => base ++ "\n  Saved to: " ++ p
  | none => base

/-- The `savedImages.forEach` accumulation of the handlers. -/
def imageLines (saved : List SavedImage) : String :=
  String.join (saved.mapIdx imageLine)

/-- Usage block every OpenRouter report ends with. -/
def usageText (u : Usage) : String :=
  "\n\n**Usage:**\n- Prompt tokens: " ++ toString u.prompt_tokens ++
    "\n- Completion tokens: " ++ toString u.completion_tokens ++
    "\n- Total tokens: " ++ toString u.total_tokens

/-- Image section of a report, present only when the response carried at
least one image. -/
def imagesSection (responseImages : List ORImage) (saved : List SavedImage) : String :=
  if 0 < responseImages.length then
    "\n\n**Generated Images:** " ++ toString responseImages.length ++ " image(s)" ++
      imageLines saved
  else ""

/-- OpenRouter request body of `generateImage` (lines 562-581). -/
def orGenBody (p : GenParams) : ORRequestBody :=
  { model := p.model, content := [ContentBlock.text p.prompt], max_tokens := p.max_tokens }

/-- OpenRouter request body of `editImage` (lines 760-789): a text block
holding the instruction followed by one image_url block per reference
image, in order. -/
def orEditBody (p : EditParams) : ORRequestBody :=
  { model := p.model,
    content := ContentBlock.text p.instruction :: p.images.map ContentBlock.image_url,
    max_tokens := p.max_tokens }

/-- Fallback report of `generateImage` (lines 583-604). -/
def orGenReport (p : GenParams) (msg : ORMessage) (u : Usage) : String :=
  let responseImages := msg.images.getD []
  let saved := saveResponseImages responseImages p.save_directory
  "**API:** OpenRouter (fallback)\n**Model:** " ++ p.model ++
    "\n**Prompt:** " ++ p.prompt ++ "\n**Response:** " ++ msg.content ++
    imagesSection responseImages saved ++ usageText u

/-- Fallback report of `editImage` (lines 791-811). -/
def orEditReport (p : EditParams) (msg : ORMessage) (u : Usage) : String :=
  let responseImages := msg.images.getD []
  let saved := saveResponseImages responseImages p.save_directory
  "**API:** OpenRouter (fallback)\n**Model:** " ++ p.model ++
    "\n**Instruction:** " ++ p.instruction ++
    "\n**Input Images:** " ++ toString p.images.length ++ " image(s)" ++
    "\n**Response:** " ++ msg.content ++
    imagesSection responseImages saved ++ usageText u

/-- The error both handlers throw when the OpenRouter fallback fails (lines
614-616 and 821-823): the message embeds only the OpenRouter failure
reason. -/
def bothFailedMsg (orError : String) : String :=
  "Both Gemini direct API and OpenRouter failed. OpenRouter error: " ++ orError

/-- Step 2 of `generateImage`: the OpenRouter attempt, its resolution, and
the resulting report or combined error. -/
def generateStep2 (p : GenParams) (w : GenWorld) : List Event × Except String String :=
  match orOutcome w.openrouter with
  | Except.error e =>
    ([Event.orAttempt (orGenBody p), Event.orResolved AttemptTag.error],
      Except.error (bothFailedMsg e))
  | Except.ok (msg, u) =>
    ([Event.orAttempt (orGenBody p), Event.orResolved AttemptTag.success],
      Except.ok (orGenReport p msg u))

/-- Step 2 of `editImage`. -/
def editStep2 (p : EditParams) (w : EditWorld) : List Event × Except String String :=
  match orOutcome w.openrouter with
  | Except.error e =>
    ([Event.orAttempt (orEditBody p), Event.orResolved AttemptTag.error],
      Except.error (bothFailedMsg e))
  | Except.ok (msg, u) =>
    ([Event.orAttempt (orEditBody p), Event.orResolved AttemptTag.success],
      Except.ok (orEditReport p msg u))

/-- Proxy line of the direct-success reports. -/
def directProxyLine (proxy : Option String) : String :=
  if truthy proxy then "\n**Proxy:** " ++ proxy.getD "" else ""

/-- Output path of a direct generation success (line 531). -/
def genOutputPath (p : GenParams) (now : Nat) : String :=
  if truthy p.save_directory then
    p.save_directory.getD "" ++ "/gemini-generated-" ++ toString now ++ ".png"
  else "gemini-generated-" ++ toString now ++ ".png"

/-- Output path of a direct edit success (line 708). -/
def editOutputPath (p : EditParams) (now : Nat) : String :=
  if truthy p.save_directory then
    p.save_directory.getD "" ++ "/gemini-edited-" ++ toString now ++ ".png"
  else "gemini-edited-" ++ toString now ++ ".png"

/-- Direct-success report of `generateImage` (lines 535-541). -/
def directGenReport (p : GenParams) (proxy : Option String) (outPath : String) : String :=
  "**API:** Gemini Direct ✅\n**Model:** gemini-2.5-flash-image-preview\n**Prompt:** " ++
    p.prompt ++ directProxyLine proxy ++
    "\n**Generated Image:** " ++ outPath ++
    "\n\nImage saved successfully using Gemini direct API!"

/-- Direct-success report of `editImage` (lines 725-731). -/
def directEditReport (p : EditParams) (proxy : Option String) (outPath : String) : String :=
  "**API:** Gemini Direct ✅\n**Model:** gemini-2.5-flash-image-preview\n**Instruction:** " ++
    p.instruction ++
    "\n**Input Images:** " ++ toString p.images.length ++ " image(s)" ++
    directProxyLine proxy ++
    "\n**Generated Image:** " ++ outPath ++
    "\n\nImage edited successfully using Gemini direct API!"

/-- Embedding of `generateImage` (tools.ts 478-617).  When the Gemini key is
truthy the direct request is issued first; a thrown error or a 2xx response
without inline image data both fall through to the OpenRouter step. -/
def generateImage (env : Env) (p : GenParams) (w : GenWorld) : List Event × Except String String :=
  let proxy := envProxy env
  if truthy env.geminiApiKey then
    let attempt := Event.geminiAttempt (geminiGenBody p.prompt) (truthy proxy)
    match w.gemini with
    | Except.error _ =>
      let s2 := generateStep2 p w
      (attempt :: Event.geminiResolved AttemptTag.error :: s2.1, s2.2)
    | Except.ok resp =>
      match extractImageData resp with
      | some _ =>
        ([attempt, Event.geminiResolved AttemptTag.success],
          Except.ok (directGenReport p proxy (genOutputPath p w.now)))
      | none =>
        let s2 := generateStep2 p w
        (attempt :: Event.geminiResolved AttemptTag.empty :: s2.1, s2.2)
  else generateStep2 p w

/-- Direct phase of `editImage` (the try block of tools.ts 629-749),
entered with a truthy Gemini key and a nonempty image list. -/
def editDirect (env : Env) (p : EditParams) (w : EditWorld) (firstImage : String) :
    List Event × Except String String :=
  let proxy := envProxy env
  match w.download with
  | Except.error _ =>
    -- downloadImageToTemp threw before its path was pushed onto tempFiles:
    -- no temp file exists and the catch block cleans up an empty list
    editStep2 p w
  | Except.ok _ =>
    if w.fileExists then
      let attempt := Event.geminiAttempt (geminiEditBody p.instruction firstImage) (truthy proxy)
      match w.gemini with
      | Except.error _ =>
        let s2 := editStep2 p w
        (Event.tempCreate firstImage :: attempt ::
          Event.geminiResolved AttemptTag.error :: Event.tempDelete :: s2.1, s2.2)
      | Except.ok resp =>
        match extractImageData resp with
        | some _ =>
          ([Event.tempCreate firstImage, attempt,
            Event.geminiResolved AttemptTag.success, Event.tempDelete],
            Except.ok (directEditReport p proxy (editOutputPath p w.now)))
        | none =>
          -- a 2xx response with no inline image part leaves the try block
          -- without an exception, so cleanupTempFiles is never reached on
          -- this path (tools.ts 706-749): the temp file is not deleted
          let s2 := editStep2 p w
          (Event.tempCreate firstImage :: attempt ::
            Event.geminiResolved AttemptTag.empty :: s2.1, s2.2)
    else
      -- the readFileSync existence check threw inside the try block; the
      -- catch deletes the already-created temp file and falls back
      let s2 := editStep2 p w
      (Event.tempCreate firstImage :: Event.tempDelete :: s2.1, s2.2)

/-- Embedding of `editImage` (tools.ts 619-824).  The direct phase runs only
when the Gemini key is truthy and at least one reference image exists. -/
def editImage (env : Env) (p : EditParams) (w : EditWorld) : List Event × Except String String :=
  match p.images with
  | [] => editStep2 p w
  | firstImage :: _ =>
    if truthy env.geminiApiKey then editDirect env p w firstImage
    else editStep2 p w

/-- Test for a temp-file deletion event. -/
def isTempDelete : Event → Bool
  | Event.tempDelete => true
  | _ => false

/-- Test for a temp-file creation event. -/
def isTempCreate : Event → Bool
  | Event.tempCreate _ => true
  | _ => false

/-- Number of temp-file deletions a call performed. -/
def deleteCount (evs : List Event) : Nat := (evs.filter isTempDelete).length

/-- Number of temp files a call materialized. -/
def createCount (evs : List Event) : Nat := (evs.filter isTempCreate).length

/-- Provider-interaction shape of a trace. -/
inductive PTag where
  | gA
  | gR
  | oA
  | oR
  deriving DecidableEq

/-- Tag of a provider-interaction event. -/
def ptagOf : Event → Option PTag
  | Event.geminiAttempt _ _ => some PTag.gA
  | Event.geminiResolved _ => some PTag.gR
  | Event.orAttempt _ => some PTag.oA
  | Event.orResolved _ => some PTag.oR
  | _ => none

/-- Sequence of provider interactions of a trace. -/
def providerTags (evs : List Event) : List PTag := evs.filterMap ptagOf

/-- Boolean prefix test on character lists. -/
def startsWithL : List Char → List Char → Bool
  | [], _ => true
  | _ :: _, [] => false
  | p :: ps, c :: cs => p == c && startsWithL ps cs

/-- Boolean substring test on character lists. -/
def isSubstrL (pat : List Char) : List Char → Bool
  | [] => pat.isEmpty
  | c :: cs => startsWithL pat (c :: cs) || isSubstrL pat cs

/-- Substring test on strings, used to state what an error message names. -/
def containsSub (pat s : String) : Bool := isSubstrL pat.toList s.toList

/-- Validated arguments of a `gemini_direct_edit` call. -/
structure GeminiDirectEditParams where
  text_prompt : String
  image_path : String
  output_path : String
  api_key : Option String
  proxy_url : Option String
  deriving DecidableEq

/-- Validated arguments of a `gemini_native_generate` call. -/
structure GeminiNativeGenerateParams where
  text_prompt : String
  output_path : String
  api_key : Option String
  proxy_url : Option String
  deriving DecidableEq

/-- Credential resolution of `gemini_direct_edit` (tools.ts 1504):
`api_key || process.env.GEMINI_API_KEY`. -/
def geminiDirectEditKey (p : GeminiDirectEditParams) (env : Env) : Option String :=
  jsOr p.api_key env.geminiApiKey

/-- Proxy resolution of `gemini_direct_edit` (tools.ts 1510):
`proxy_url || process.env.HTTP_PROXY || process.env.HTTPS_PROXY`. -/
def geminiDirectEditProxy (p : GeminiDirectEditParams) (env : Env) : Option String :=
  jsOr p.proxy_url (jsOr env.httpProxy env.httpsProxy)

/-- Credential resolution of `gemini_native_generate` (tools.ts 1611). -/
def geminiNativeGenerateKey (p : GeminiNativeGenerateParams) (env : Env) : Option String :=
  jsOr p.api_key env.geminiApiKey

/-- Proxy resolution of `gemini_native_generate` (tools.ts 1617). -/
def geminiNativeGenerateProxy (p : GeminiNativeGenerateParams) (env : Env) : Option String :=
  jsOr p.proxy_url (jsOr env.httpProxy env.httpsProxy)

/-!
Model of the image extraction of `geminiDirectEdit` and
`geminiNativeGenerate` (tools.ts 1569-1577 and 1648-1656): the parsed
response body is serialized with the compact `JSON.stringify` and matched
against the pattern quote-data-quote-colon-space-quote with a capture of the
following non-quote run.  `JVal` is the type of JSON values a parsed
response body can take; numbers serialize through their decimal notation,
whose character alphabet is all that matters below.
-/

/-- JSON values of a parsed response body. -/
inductive JVal where
  | null
  | bool (b : Bool)
  | num (n : Int)
  | str (s : List Char)
  | arr (elems : List JVal)
  | obj (fields : List (List Char × JVal))

/-- Decimal digit character. -/
def digitChar (d : Nat) : Char :=
  if d = 0 then '0' else if d = 1 then '1' else if d = 2 then '2'
  else if d = 3 then '3' else if d = 4 then '4' else if d = 5 then '5'
  else if d = 6 then '6' else if d = 7 then '7' else if d = 8 then '8'
  else '9'

/-- Decimal notation of a natural number. -/
def natToChars (n : Nat) : List Char :=
  if _h : n < 10 then [digitChar n]
  else natToChars (n / 10) ++ [digitChar (n % 10)]
termination_by n
decreasing_by
  simp_wf
  exact Nat.div_lt_self (by omega) (by omega)

/-- Decimal notation of an integer. -/
def intToChars (n : Int) : List Char :=
  if n < 0 then '-' :: natToChars n.natAbs else natToChars n.natAbs

/-- String-content escaping of `JSON.stringify`: a quote or backslash is
emitted behind a backslash, other characters verbatim.  (The JS control
character escapes also only emit backslash-initiated pairs and never a bare
quote, so they are covered by the same argument and not distinguished
here.) -/
def escChar (c : Char) : List Char :=
  if c = '"' then ['\\', '"']
  else if c = '\\' then ['\\', '\\']
  else [c]

/-- Escaped content of a string literal. -/
def escStr (s : List Char) : List Char := s.flatMap escChar

/-- Serialized string literal: quote, escaped content, quote. -/
def serStr (s : List Char) : List Char := '"' :: (escStr s ++ ['"'])

mutual

/-- Compact `JSON.stringify` serialization: no whitespace is ever emitted
outside string content. -/
def serJson : JVal → List Char
  | JVal.null => ['n', 'u', 'l', 'l']
  | JVal.bool true => ['t', 'r', 'u', 'e']
  | JVal.bool false => ['f', 'a', 'l', 's', 'e']
  | JVal.num n => intToChars n
  | JVal.str s => serStr s
  | JVal.arr xs => '[' :: (serElems xs ++ [']'])
  | JVal.obj fs => '{' :: (serFields fs ++ ['}'])

/-- Comma-joined serialization of array elements. -/
def serElems : List JVal → List Char
  | [] => []
  | [x] => serJson x
  | x :: y :: xs => serJson x ++ ',' :: serElems (y :: xs)

/-- Comma-joined serialization of object fields, each a serialized key, a
colon, and a serialized value. -/
def serFields : List (List Char × JVal) → List Char
  | [] => []
  | [(k, v)] => serStr k ++ ':' :: serJson v
  | (k, v) :: f :: fs => serStr k ++ ':' :: serJson v ++ ',' :: serFields (f :: fs)

end

/-- The literal character sequence the extraction regex requires before its
capture group: quote, d, a, t, a, quote, colon, space, quote. -/
def dataPat : List Char := ['"', 'd', 'a', 't', 'a', '"', ':', ' ', '"']

/-- Greedy tail of the regex at a candidate position: the non-quote capture
run must be followed by a closing quote. -/
def capAfter (s : List Char) : Option (List Char) :=
  let cap := s.takeWhile fun c => !(c == '"')
  match s.dropWhile (fun c => !(c == '"')) with
  | '"' :: _ => some cap
  | _ => none

/-- Leftmost-match semantics of `responseText.match` for the extraction
pattern: try each start position in order; at a position carrying the
literal pattern the capture must find its closing quote, otherwise later
positions are tried. -/
def findDataMatch : List Char → Option (List Char)
  | [] => none
  | c :: rest =>
    if dataPat.isPrefixOf (c :: rest) then
      match capAfter ((c :: rest).drop dataPat.length) with
      | some cap => some cap
      | none => findDataMatch rest
    else findDataMatch rest

/-- Image-data extraction shared by `geminiDirectEdit` and
`geminiNativeGenerate`: serialize the response body, match the pattern, and
raise the fixed error when there is no match. -/
def geminiExtractFromResponse (j : JVal) : Except String (List Char) :=
  match findDataMatch (serJson j) with
  | none => Except.error "No image data found in Gemini response"
  | some cap => Except.ok cap

/-- Extraction step of `geminiDirectEdit` (tools.ts 1569-1577). -/
def geminiDirectEditExtract (j : JVal) : Except String (List Char) :=
  geminiExtractFromResponse j

/-- Extraction step of `geminiNativeGenerate` (tools.ts 1648-1656). -/
def geminiNativeGenerateExtract (j : JVal) : Except String (List Char) :=
  geminiExtractFromResponse j

/-- Pattern-scanning automaton: state `k < 4` means the last characters read
form the length-`k` prefix of the critical window a-quote-colon-space, and
state 4 (absorbing) means the window occurred somewhere. -/
def step (st : Nat) (c : Char) : Nat :=
  if st = 4 then 4
  else if st = 3 ∧ c = ' ' then 4
  else if c = 'a' then 1
  else if st = 1 ∧ c = '"' then 2
  else if st = 2 ∧ c = ':' then 3
  else 0

/-- Scan of a character list by the automaton. -/
def scan (st : Nat) (l : List Char) : Nat := l.foldl step st

theorem scan_cons (st : Nat) (c : Char) (l : List Char) :
    scan st (c :: l) = scan (step st c) l := rfl

theorem scan_append (st : Nat) (l₁ l₂ : List Char) :
    scan st (l₁ ++ l₂) = scan (scan st l₁) l₂ := by
  simp [scan, List.foldl_append]

theorem step_four (c : Char) : step 4 c = 4 := by simp [step]

theorem scan_four (l : List Char) : scan 4 l = 4 := by
  induction l with
  | nil => rfl
  | cons c t ih => rw [scan_cons, step_four]; exact ih

/-- Characters that reset the automaton from every live state. -/
def safeChar (c : Char) : Prop := ¬ c = 'a' ∧ ¬ c = ' ' ∧ ¬ c = '"' ∧ ¬ c = ':'

theorem step_safe {st : Nat} {c : Char} (h : st ≤ 3) (hc : safeChar c) : step st c = 0 := by
  obtain ⟨h1, h2, h3, h4⟩ := hc
  unfold step
  rw [if_neg (by omega), if_neg (by rintro ⟨-, hh⟩; exact h2 hh), if_neg h1,
    if_neg (by rintro ⟨-, hh⟩; exact h3 hh), if_neg (by rintro ⟨-, hh⟩; exact h4 hh)]

theorem scan_safe_zero {l : List Char} (hl : ∀ c ∈ l, safeChar c) : scan 0 l = 0 := by
  induction l with
  | nil => rfl
  | cons c t ih =>
    rw [scan_cons, step_safe (by omega) (hl c (by simp))]
    exact ih fun c hc => hl c (List.mem_cons_of_mem _ hc)

theorem scan_safe_ne {l : List Char} (hl : ∀ c ∈ l, safeChar c) (hne : l ≠ []) {st : Nat}
    (h : st ≤ 3) : scan st l = 0 := by
  cases l with
  | nil => exact absurd rfl hne
  | cons c t =>
    rw [scan_cons, step_safe h (hl c (by simp))]
    exact scan_safe_zero fun c hc => hl c (List.mem_cons_of_mem _ hc)

/-- The ten digit characters. -/
def digitCharSet : List Char := ['0', '1', '2', '3', '4', '5', '6', '7', '8', '9']

theorem digitChar_mem (d : Nat) : digitChar d ∈ digitCharSet := by
  unfold digitChar
  split_ifs <;> decide

theorem natToChars_mem (n : Nat) : ∀ c ∈ natToChars n, c ∈ digitCharSet := by
  induction n using Nat.strong_induction_on with
  | _ n ih =>
    intro c hc
    rw [natToChars.eq_def] at hc
    by_cases h : n < 10
    · rw [dif_pos h] at hc
      simp at hc
      rw [hc]
      exact digitChar_mem n
    · rw [dif_neg h] at hc
      rcases List.mem_append.mp hc with hc | hc
      · exact ih _ (Nat.div_lt_self (by omega) (by omega)) c hc
      · simp at hc
        rw [hc]
        exact digitChar_mem _

theorem natToChars_ne_nil (n : Nat) : natToChars n ≠ [] := by
  rw [natToChars.eq_def]
  by_cases h : n < 10
  · rw [dif_pos h]; simp
  · rw [dif_neg h]; simp

theorem intToChars_mem (n : Int) : ∀ c ∈ intToChars n, c = '-' ∨ c ∈ digitCharSet := by
  intro c hc
  unfold intToChars at hc
  split_ifs at hc with h
  · rcases List.mem_cons.mp hc with hc | hc
    · exact Or.inl hc
    · exact Or.inr (natToChars_mem _ c hc)
  · exact Or.inr (natToChars_mem _ c hc)

theorem intToChars_ne_nil (n : Int) : intToChars n ≠ [] := by
  unfold intToChars
  split_ifs
  · simp
  · exact natToChars_ne_nil _

theorem safeChar_of_numChar {c : Char} (h : c = '-' ∨ c ∈ digitCharSet) : safeChar c := by
  rcases h with h | h
  · rw [h]; refine ⟨by decide, by decide, by decide, by decide⟩
  · fin_cases h <;> exact ⟨by decide, by decide, by decide, by decide⟩

theorem scan_intToChars (n : Int) {st : Nat} (h : st ≤ 3) : scan st (intToChars n) = 0 :=
  scan_safe_ne (fun c hc => safeChar_of_numChar (intToChars_mem n c hc))
    (intToChars_ne_nil n) h

theorem scan_escChar (c : Char) {st : Nat} (h : st ≤ 1) : scan st (escChar c) ≤ 1 := by
  unfold escChar
  split_ifs with h1 h2
  · interval_cases st <;> decide
  · interval_cases st <;> decide
  · rw [show scan st [c] = step st c from rfl]
    unfold step
    split_ifs with g1 g2 g3 g4 g5
    · omega
    · exact absurd g2.1 (by omega)
    · omega
    · exact absurd g4.2 h1
    · exact absurd g5.1 (by omega)
    · omega

theorem scan_escStr (s : List Char) : ∀ st, st ≤ 1 → scan st (escStr s) ≤ 1 := by
  induction s with
  | nil => intro st h; exact h
  | cons c t ih =>
    intro st h
    have he : escStr (c :: t) = escChar c ++ escStr t := by simp [escStr]
    rw [he, scan_append]
    exact ih _ (scan_escChar c h)

theorem scan_serStr (s : List Char) {st : Nat} (h : st = 0 ∨ st = 3) :
    scan st (serStr s) = 0 ∨ scan st (serStr s) = 2 := by
  have h0 : step st '"' = 0 := by rcases h with h | h <;> subst h <;> decide
  unfold serStr
  rw [scan_cons, h0, scan_append]
  have h1 : scan 0 (escStr s) ≤ 1 := scan_escStr s 0 (by omega)
  rcases Nat.le_one_iff_eq_zero_or_eq_one.mp h1 with h2 | h2 <;> rw [h2]
  · left; decide
  · right; decide

mutual

theorem scan_serJson : ∀ (j : JVal) (st : Nat), st = 0 ∨ st = 3 →
    scan st (serJson j) = 0 ∨ scan st (serJson j) = 2
  | JVal.null, st, h => by
    rcases h with h | h <;> subst h <;> simp only [serJson] <;> left <;> decide
  | JVal.bool true, st, h => by
    rcases h with h | h <;> subst h <;> simp only [serJson] <;> left <;> decide
  | JVal.bool false, st, h => by
    rcases h with h | h <;> subst h <;> simp only [serJson] <;> left <;> decide
  | JVal.num n, st, h => by
    simp only [serJson]
    exact Or.inl (scan_intToChars n (by rcases h with h | h <;> omega))
  | JVal.str s, st, h => by
    simp only [serJson]
    exact scan_serStr s h
  | JVal.arr xs, st, h => by
    simp only [serJson]
    have h0 : step st '[' = 0 := by rcases h with h | h <;> subst h <;> decide
    rw [scan_cons, h0, scan_append]
    rcases scan_serElems xs with h1 | h1 <;> rw [h1]
    · left; decide
    · left; decide
  | JVal.obj fs, st, h => by
    simp only [serJson]
    have h0 : step st '{' = 0 := by rcases h with h | h <;> subst h <;> decide
    rw [scan_cons, h0, scan_append]
    rcases scan_serFields fs with h1 | h1 <;> rw [h1]
    · left; decide
    · left; decide

theorem scan_serElems : ∀ (xs : List JVal),
    scan 0 (serElems xs) = 0 ∨ scan 0 (serElems xs) = 2
  | [] => by simp only [serElems]; left; rfl
  | [x] => by simp only [serElems]; exact scan_serJson x 0 (Or.inl rfl)
  | x :: y :: xs => by
    simp only [serElems]
    rw [scan_append]
    rcases scan_serJson x 0 (Or.inl rfl) with h1 | h1 <;> rw [h1, scan_cons]
    · rw [show step 0 ',' = 0 from by decide]
      exact scan_serElems (y :: xs)
    · rw [show step 2 ',' = 0 from by decide]
      exact scan_serElems (y :: xs)

theorem scan_serFields : ∀ (fs : List (List Char × JVal)),
    scan 0 (serFields fs) = 0 ∨ scan 0 (serFields fs) = 2
  | [] => by simp only [serFields]; left; rfl
  | [(k, v)] => by
    simp only [serFields]
    rw [scan_append]
    rcases scan_serStr k (Or.inl rfl) with h1 | h1 <;> rw [h1, scan_cons]
    · rw [show step 0 ':' = 0 from by decide]
      exact scan_serJson v 0 (Or.inl rfl)
    · rw [show step 2 ':' = 3 from by decide]
      exact scan_serJson v 3 (Or.inr rfl)
  | (k, v) :: f :: fs => by
    simp only [serFields]
    rw [scan_append, scan_append]
    rcases scan_serStr k (Or.inl rfl) with h1 | h1
    · rw [h1, scan_cons 0 ':' (serJson v), show step 0 ':' = 0 from by decide]
      rcases scan_serJson v 0 (Or.inl rfl) with h2 | h2
      · rw [h2, scan_cons 0 ',' (serFields (f :: fs)), show step 0 ',' = 0 from by decide]
        exact scan_serFields (f :: fs)
      · rw [h2, scan_cons 2 ',' (serFields (f :: fs)), show step 2 ',' = 0 from by decide]
        exact scan_serFields (f :: fs)
    · rw [h1, scan_cons 2 ':' (serJson v), show step 2 ':' = 3 from by decide]
      rcases scan_serJson v 3 (Or.inr rfl) with h2 | h2
      · rw [h2, scan_cons 0 ',' (serFields (f :: fs)), show step 0 ',' = 0 from by decide]
        exact scan_serFields (f :: fs)
      · rw [h2, scan_cons 2 ',' (serFields (f :: fs)), show step 2 ',' = 0 from by decide]
        exact scan_serFields (f :: fs)

end

theorem step_a (st : Nat) (h : ¬ st = 4) : step st 'a' = 1 := by
  unfold step
  have h2 : ¬ (st = 3 ∧ ('a' : Char) = ' ') := by
    rintro ⟨-, hc⟩
    exact absurd hc (by decide)
  rw [if_neg h, if_neg h2, if_pos rfl]

theorem scan_after_a (st : Nat) (r : List Char) :
    scan st (['a', '"', ':', ' '] ++ r) = 4 := by
  rw [scan_append]
  by_cases h4 : st = 4
  · subst h4
    rw [scan_four]
    exact scan_four r
  · have h1 : scan st ['a', '"', ':', ' '] = 4 := by
      rw [scan_cons, step_a st h4]
      decide
    rw [h1]
    exact scan_four r

theorem scan_of_dataPat (l r : List Char) : scan 0 (l ++ (dataPat ++ r)) = 4 := by
  rw [scan_append]
  have hsplit : dataPat ++ r = ['"', 'd', 'a', 't'] ++ (['a', '"', ':', ' '] ++ ('"' :: r)) := by
    simp [dataPat]
  rw [hsplit, scan_append]
  exact scan_after_a _ _

theorem findDataMatch_infix (s : List Char) : ∀ cap, findDataMatch s = some cap →
    ∃ l r, s = l ++ (dataPat ++ r) := by
  induction s with
  | nil => intro cap h; simp [findDataMatch] at h
  | cons c rest ih =>
    intro cap h
    by_cases hp : dataPat.isPrefixOf (c :: rest)
    · obtain ⟨t, ht⟩ := List.isPrefixOf_iff_prefix.mp hp
      exact ⟨[], t, by rw [List.nil_append, ht]⟩
    · simp only [findDataMatch, if_neg hp] at h
      obtain ⟨l, r, hr⟩ := ih cap h
      exact ⟨c :: l, r, by rw [hr]; rfl⟩

theorem bool_eq_false {b : Bool} (h : ¬ b = true) : b = false := by
  cases b
  · rfl
  · exact absurd rfl h

/-- Case analysis of `generateStep2`: the OpenRouter attempt either fails,
producing the combined error around the secondary failure reason only, or
succeeds, producing the fallback report. -/
theorem generateStep2_spec (p : GenParams) (w : GenWorld) :
    (∃ e, orOutcome w.openrouter = Except.error e ∧
      generateStep2 p w =
        ([Event.orAttempt (orGenBody p), Event.orResolved AttemptTag.error],
          Except.error (bothFailedMsg e))) ∨
    (∃ msg u, orOutcome w.openrouter = Except.ok (msg, u) ∧
      generateStep2 p w =
        ([Event.orAttempt (orGenBody p), Event.orResolved AttemptTag.success],
          Except.ok (orGenReport p msg u))) := by
  unfold generateStep2
  cases h : orOutcome w.openrouter with
  | error e => exact Or.inl ⟨e, rfl, rfl⟩
  | ok mu =>
    obtain ⟨msg, u⟩ := mu
    exact Or.inr ⟨msg, u, rfl, rfl⟩

/-- Case analysis of `editStep2`. -/
theorem editStep2_spec (p : EditParams) (w : EditWorld) :
    (∃ e, orOutcome w.openrouter = Except.error e ∧
      editStep2 p w =
        ([Event.orAttempt (orEditBody p), Event.orResolved AttemptTag.error],
          Except.error (bothFailedMsg e))) ∨
    (∃ msg u, orOutcome w.openrouter = Except.ok (msg, u) ∧
      editStep2 p w =
        ([Event.orAttempt (orEditBody p), Event.orResolved AttemptTag.success],
          Except.ok (orEditReport p msg u))) := by
  unfold editStep2
  cases h : orOutcome w.openrouter with
  | error e => exact Or.inl ⟨e, rfl, rfl⟩
  | ok mu =>
    obtain ⟨msg, u⟩ := mu
    exact Or.inr ⟨msg, u, rfl, rfl⟩

/-- Branch characterization of `generateImage`: the direct phase is skipped
without a key; with a key it is attempted first and resolves as a thrown
error, a success, or an empty response, the latter two falling through to
step 2. -/
theorem generateImage_spec (env : Env) (p : GenParams) (w : GenWorld) :
    (truthy env.geminiApiKey = false ∧ generateImage env p w = generateStep2 p w) ∨
    (truthy env.geminiApiKey = true ∧ ∃ ge, w.gemini = Except.error ge ∧
      generateImage env p w =
        (Event.geminiAttempt (geminiGenBody p.prompt) (truthy (envProxy env)) ::
          Event.geminiResolved AttemptTag.error :: (generateStep2 p w).1,
          (generateStep2 p w).2)) ∨
    (truthy env.geminiApiKey = true ∧ ∃ resp d, w.gemini = Except.ok resp ∧
      extractImageData resp = some d ∧
      generateImage env p w =
        ([Event.geminiAttempt (geminiGenBody p.prompt) (truthy (envProxy env)),
          Event.geminiResolved AttemptTag.success],
          Except.ok (directGenReport p (envProxy env) (genOutputPath p w.now)))) ∨
    (truthy env.geminiApiKey = true ∧ ∃ resp, w.gemini = Except.ok resp ∧
      extractImageData resp = none ∧
      generateImage env p w =
        (Event.geminiAttempt (geminiGenBody p.prompt) (truthy (envProxy env)) ::
          Event.geminiResolved AttemptTag.empty :: (generateStep2 p w).1,
          (generateStep2 p w).2)) := by
  unfold generateImage
  by_cases hk : truthy env.geminiApiKey
  · rw [if_pos hk]
    cases hg : w.gemini with
    | error ge => exact Or.inr (Or.inl ⟨hk, ge, rfl, rfl⟩)
    | ok resp =>
      cases he : extractImageData resp with
      | some d => exact Or.inr (Or.inr (Or.inl ⟨hk, resp, d, rfl, he, by simp [he]⟩))
      | none => exact Or.inr (Or.inr (Or.inr ⟨hk, resp, rfl, he, by simp [he]⟩))
  · rw [if_neg hk]
    exact Or.inl ⟨bool_eq_false hk, rfl⟩

/-- Branch characterization of `editImage`. -/
theorem editImage_spec (env : Env) (p : EditParams) (w : EditWorld) :
    (p.images = [] ∧ editImage env p w = editStep2 p w) ∨
    (truthy env.geminiApiKey = false ∧ editImage env p w = editStep2 p w) ∨
    (truthy env.geminiApiKey = true ∧ ∃ i0 t de, p.images = i0 :: t ∧
      w.download = Except.error de ∧ editImage env p w = editStep2 p w) ∨
    (truthy env.geminiApiKey = true ∧ ∃ i0 t, p.images = i0 :: t ∧
      w.download = Except.ok () ∧ w.fileExists = false ∧
      editImage env p w =
        (Event.tempCreate i0 :: Event.tempDelete :: (editStep2 p w).1,
          (editStep2 p w).2)) ∨
    (truthy env.geminiApiKey = true ∧ ∃ i0 t ge, p.images = i0 :: t ∧
      w.download = Except.ok () ∧ w.fileExists = true ∧ w.gemini = Except.error ge ∧
      editImage env p w =
        (Event.tempCreate i0 ::
          Event.geminiAttempt (geminiEditBody p.instruction i0) (truthy (envProxy env)) ::
          Event.geminiResolved AttemptTag.error :: Event.tempDelete :: (editStep2 p w).1,
          (editStep2 p w).2)) ∨
    (truthy env.geminiApiKey = true ∧ ∃ i0 t resp d, p.images = i0 :: t ∧
      w.download = Except.ok () ∧ w.fileExists = true ∧ w.gemini = Except.ok resp ∧
      extractImageData resp = some d ∧
      editImage env p w =
        ([Event.tempCreate i0,
          Event.geminiAttempt (geminiEditBody p.instruction i0) (truthy (envProxy env)),
          Event.geminiResolved AttemptTag.success, Event.tempDelete],
          Except.ok (directEditReport p (envProxy env) (editOutputPath p w.now)))) ∨
    (truthy env.geminiApiKey = true ∧ ∃ i0 t resp, p.images = i0 :: t ∧
      w.download = Except.ok () ∧ w.fileExists = true ∧ w.gemini = Except.ok resp ∧
      extractImageData resp = none ∧
      editImage env p w =
        (Event.tempCreate i0 ::
          Event.geminiAttempt (geminiEditBody p.instruction i0) (truthy (envProxy env)) ::
          Event.geminiResolved AttemptTag.empty :: (editStep2 p w).1,
          (editStep2 p w).2)) := by
  unfold editImage
  cases hi : p.images with
  | nil => exact Or.inl ⟨rfl, rfl⟩
  | cons i0 t =>
    dsimp only
    by_cases hk : truthy env.geminiApiKey
    · rw [if_pos hk]
      unfold editDirect
      cases hd : w.download with
      | error de =>
        exact Or.inr (Or.inr (Or.inl ⟨hk, i0, t, de, rfl, rfl, rfl⟩))
      | ok u =>
        cases u
        dsimp only
        by_cases hf : w.fileExists
        · rw [if_pos hf]
          cases hg : w.gemini with
          | error ge =>
            exact Or.inr (Or.inr (Or.inr (Or.inr (Or.inl
              ⟨hk, i0, t, ge, rfl, rfl, hf, rfl, rfl⟩))))
          | ok resp =>
            cases he : extractImageData resp with
            | some d =>
              exact Or.inr (Or.inr (Or.inr (Or.inr (Or.inr (Or.inl
                ⟨hk, i0, t, resp, d, rfl, rfl, hf, rfl, he, by simp [he]⟩)))))
            | none =>
              exact Or.inr (Or.inr (Or.inr (Or.inr (Or.inr (Or.inr
                ⟨hk, i0, t, resp, rfl, rfl, hf, rfl, he, by simp [he]⟩)))))
        · rw [if_neg hf]
          exact Or.inr (Or.inr (Or.inr (Or.inl
            ⟨hk, i0, t, rfl, rfl, bool_eq_false hf, rfl⟩)))
    · rw [if_neg hk]
      exact Or.inr (Or.inl ⟨bool_eq_false hk, rfl⟩)

theorem generateStep2_err {p : GenParams} {w : GenWorld} {e : String}
    (h : orOutcome w.openrouter = Except.error e) :
    (generateStep2 p w).2 = Except.error (bothFailedMsg e) := by
  unfold generateStep2
  rw [h]

theorem editStep2_err {p : EditParams} {w : EditWorld} {e : String}
    (h : orOutcome w.openrouter = Except.error e) :
    (editStep2 p w).2 = Except.error (bothFailedMsg e) := by
  unfold editStep2
  rw [h]

theorem generateStep2_trace (p : GenParams) (w : GenWorld) :
    ∃ tag, (generateStep2 p w).1 =
      [Event.orAttempt (orGenBody p), Event.orResolved tag] := by
  rcases generateStep2_spec p w with ⟨e, _, hq⟩ | ⟨msg, u, _, hq⟩ <;> rw [hq]
  · exact ⟨AttemptTag.error, rfl⟩
  · exact ⟨AttemptTag.success, rfl⟩

theorem editStep2_trace (p : EditParams) (w : EditWorld) :
    ∃ tag, (editStep2 p w).1 =
      [Event.orAttempt (orEditBody p), Event.orResolved tag] := by
  rcases editStep2_spec p w with ⟨e, _, hq⟩ | ⟨msg, u, _, hq⟩ <;> rw [hq]
  · exact ⟨AttemptTag.error, rfl⟩
  · exact ⟨AttemptTag.success, rfl⟩

/-- Claim C3, core fact: the extraction pattern never occurs in a compact
serialization, so the match always fails.  Every quote emitted inside string
content is directly preceded by a backslash, and every delimiter quote is
followed either by a compact separator or by a value whose first character
is never a space, so the window a-quote-colon-space cannot occur, and with
it the full pattern cannot. -/
theorem findDataMatch_serJson (j : JVal) : findDataMatch (serJson j) = none := by
  cases hm : findDataMatch (serJson j) with
  | none => rfl
  | some cap =>
    obtain ⟨l, r, hr⟩ := findDataMatch_infix (serJson j) cap hm
    have h4 : scan 0 (serJson j) = 4 := by rw [hr]; exact scan_of_dataPat l r
    rcases scan_serJson j 0 (Or.inl rfl) with h | h <;> omega

/-- Claim C3: for every direct-provider response body, the image extraction
of gemini_direct_edit and gemini_native_generate, matching the pattern
quote-data-quote-colon-space-quote against the compact JSON.stringify
serialization, finds no match, because the compact serialization emits no
space after a colon; both tools therefore raise the fixed no-image-data
error for every 2xx response, including responses that do contain inline
image data. -/
theorem claim_C3_regex_never_matches (j : JVal) :
    geminiDirectEditExtract j = Except.error "No image data found in Gemini response" ∧
    geminiNativeGenerateExtract j = Except.error "No image data found in Gemini response" := by
  have h := findDataMatch_serJson j
  constructor <;>
    simp [geminiDirectEditExtract, geminiNativeGenerateExtract, geminiExtractFromResponse, h]

/-- Environment of the claim C1 evaluation: a Gemini key is configured. -/
def c1Env : Env :=
  { geminiApiKey := some ("gk"), httpProxy := none, httpsProxy := none,
    openrouterApiKey := some ("ok") }

/-- Arguments of the claim C1 evaluation: an edit call with one remote
reference image. -/
def c1Params : EditParams :=
  { model := "google/gemini-2.5-flash-image-preview:free",
    instruction := "make it brighter",
    images := ["https://example.com/cat.jpg"],
    max_tokens := 1000, save_directory := none }

/-- A 2xx Gemini response carrying no inline image data. -/
def c1Resp : GeminiResponse :=
  { candidates := [{ content := some { parts := [{ inlineData := none }] } }] }

/-- World of the claim C1 evaluation: download and existence check succeed,
the direct request returns 2xx with no image, the fallback succeeds. -/
def c1World : EditWorld :=
  { download := Except.ok (), fileExists := true,
    gemini := Except.ok c1Resp,
    openrouter := Except.ok
      { choices := [{ message := { content := "cannot edit", images := none } }],
        usage := { prompt_tokens := 1, completion_tokens := 2, total_tokens := 3 } },
    now := 7 }

/-- Claim C1 evaluated at its failing input (code bug): with a direct
credential and one reference image, a 2xx direct response with no inline
image data materializes the temp file but performs zero deletions before
and after falling back, so the transient asset is not deleted exactly once
by the end of the call — it is never deleted on this path. -/
theorem claim_C1_cleanup_missed_on_empty_response :
    createCount (editImage c1Env c1Params c1World).1 = 1 ∧
    deleteCount (editImage c1Env c1Params c1World).1 = 0 ∧
    (editImage c1Env c1Params c1World).1 =
      [Event.tempCreate ("https://example.com/cat.jpg"),
        Event.geminiAttempt
          (geminiEditBody ("make it brighter") ("https://example.com/cat.jpg")) false,
        Event.geminiResolved AttemptTag.empty,
        Event.orAttempt (orEditBody c1Params),
        Event.orResolved AttemptTag.success] := by
  refine ⟨rfl, rfl, ?_⟩
  decide

/-- Environment and input of the claim C2 counterexample. -/
def c2Env : Env :=
  { geminiApiKey := some ("gk"), httpProxy := none, httpsProxy := none,
    openrouterApiKey := some ("ok") }

/-- Arguments of the claim C2 counterexample. -/
def c2Params : GenParams :=
  { model := "m", prompt := "a cat", max_tokens := 1000, save_directory := none }

/-- World of the claim C2 counterexample: both attempts fail, with
distinguishable reasons. -/
def c2World : GenWorld :=
  { gemini := Except.error ("GEMINI BOOM 42"),
    openrouter := Except.error ("OR BOOM 7"), now := 0 }

/-- Claim C2 counterexample: the direct attempt fails with reason
GEMINI BOOM 42 and the secondary fails with reason OR BOOM 7, yet the
resulting single error contains only the secondary reason and not the
direct reason, so the message does not name both failure reasons. -/
theorem claim_C2_only_secondary_reason_named :
    (generateImage c2Env c2Params c2World).2 =
      Except.error (bothFailedMsg ("OR BOOM 7")) ∧
    containsSub ("OR BOOM 7") (bothFailedMsg ("OR BOOM 7")) = true ∧
    containsSub ("GEMINI BOOM 42") (bothFailedMsg ("OR BOOM 7")) = false := by
  refine ⟨?_, by decide, by decide⟩
  decide

/-- Claim C2 amended: whenever the secondary attempt was made and failed,
the call fails with the single combined error that states both providers
failed but embeds only the secondary provider failure reason (the direct
reason is only logged). -/
theorem claim_C2_amended (env : Env) (p : GenParams) (w : GenWorld) (e : String)
    (hmem : Event.orAttempt (orGenBody p) ∈ (generateImage env p w).1)
    (h : orOutcome w.openrouter = Except.error e)
    (env2 : Env) (p2 : EditParams) (w2 : EditWorld) (e2 : String)
    (hmem2 : Event.orAttempt (orEditBody p2) ∈ (editImage env2 p2 w2).1)
    (h2 : orOutcome w2.openrouter = Except.error e2) :
    (generateImage env p w).2 = Except.error (bothFailedMsg e) ∧
    (editImage env2 p2 w2).2 = Except.error (bothFailedMsg e2) := by
  constructor
  · rcases generateImage_spec env p w with ⟨hk, hq⟩ | ⟨hk, ge, hg, hq⟩ |
      ⟨hk, resp, d, hg, he, hq⟩ | ⟨hk, resp, hg, he, hq⟩
    · rw [hq]; exact generateStep2_err h
    · rw [hq]; exact generateStep2_err h
    · rw [hq] at hmem; simp at hmem
    · rw [hq]; exact generateStep2_err h
  · rcases editImage_spec env2 p2 w2 with ⟨hi, hq⟩ | ⟨hk, hq⟩ |
      ⟨hk, i0, t, de, hi, hd, hq⟩ | ⟨hk, i0, t, hi, hd, hf, hq⟩ |
      ⟨hk, i0, t, ge, hi, hd, hf, hg, hq⟩ |
      ⟨hk, i0, t, resp, d, hi, hd, hf, hg, he, hq⟩ |
      ⟨hk, i0, t, resp, hi, hd, hf, hg, he, hq⟩
    · rw [hq]; exact editStep2_err h2
    · rw [hq]; exact editStep2_err h2
    · rw [hq]; exact editStep2_err h2
    · rw [hq]; exact editStep2_err h2
    · rw [hq]; exact editStep2_err h2
    · rw [hq] at hmem2; simp at hmem2
    · rw [hq]; exact editStep2_err h2

/-- Claim C2 amended, witness instance. -/
theorem claim_C2_amended_witness :
    (generateImage c2Env c2Params c2World).2 =
      Except.error (bothFailedMsg ("OR BOOM 7")) ∧
    (editImage c1Env c1Params
        { c1World with openrouter := Except.error ("OR BOOM 7") }).2 =
      Except.error (bothFailedMsg ("OR BOOM 7")) :=
  claim_C2_amended c2Env c2Params c2World ("OR BOOM 7") (by decide) (by decide)
    c1Env c1Params { c1World with openrouter := Except.error ("OR BOOM 7") }
    ("OR BOOM 7") (by decide) (by decide)

/-- Claim C4: an edit_image call with an empty images list never builds or
issues a direct-provider request, regardless of the credential: the call is
exactly its OpenRouter step, and its whole trace is the one secondary
attempt and its resolution. -/
theorem claim_C4_eligibility_gate (env : Env) (p : EditParams) (w : EditWorld)
    (h : p.images = []) :
    editImage env p w = editStep2 p w ∧
    ∃ tag, (editImage env p w).1 =
      [Event.orAttempt (orEditBody p), Event.orResolved tag] := by
  have h1 : editImage env p w = editStep2 p w := by
    unfold editImage
    rw [h]
  refine ⟨h1, ?_⟩
  obtain ⟨tag, h2⟩ := editStep2_trace p w
  exact ⟨tag, by rw [h1, h2]⟩

/-- Arguments of the claim C4 witness: an edit call with no images. -/
def c4Params : EditParams :=
  { model := "m", instruction := "describe", images := [],
    max_tokens := 1000, save_directory := none }

/-- Claim C4 witness instance: Gemini credential present, empty image
list. -/
theorem claim_C4_witness :
    editImage c1Env c4Params c1World = editStep2 c4Params c1World ∧
    ∃ tag, (editImage c1Env c4Params c1World).1 =
      [Event.orAttempt (orEditBody c4Params), Event.orResolved tag] :=
  claim_C4_eligibility_gate c1Env c4Params c1World rfl

/-- Environment of the claim C5 counterexample: no credential at all. -/
def c5Env : Env :=
  { geminiApiKey := none, httpProxy := none, httpsProxy := none,
    openrouterApiKey := none }

/-- Arguments of the claim C5 counterexample. -/
def c5Params : GenParams :=
  { model := "google/gemini-2.5-flash-image-preview:free", prompt := "a dog",
    max_tokens := 1000, save_directory := none }

/-- World of the claim C5 counterexample: the unauthorized secondary
request fails. -/
def c5World : GenWorld :=
  { gemini := Except.error ("unused"),
    openrouter := Except.error ("401 Unauthorized"), now := 0 }

/-- Claim C5 counterexample: with no usable credential for any provider the
generate_image call still issues one secondary-provider request and fails
with the combined both-failed error, not with a configuration error and not
with zero provider attempts. -/
theorem claim_C5_attempt_made_without_credentials :
    (generateImage c5Env c5Params c5World).1 =
      [Event.orAttempt (orGenBody c5Params), Event.orResolved AttemptTag.error] ∧
    (generateImage c5Env c5Params c5World).2 =
      Except.error (bothFailedMsg ("401 Unauthorized")) := by
  refine ⟨?_, ?_⟩ <;> decide

/-- Claim C5 amended: the handlers perform no credential check at all.
Without a truthy Gemini key (the OpenRouter key is never consulted), both
calls skip the direct provider and still issue exactly one secondary
request; the call fails only if that request fails, with the combined
both-failed error. -/
theorem claim_C5_amended (env : Env) (p : GenParams) (w : GenWorld)
    (p2 : EditParams) (w2 : EditWorld)
    (hk : truthy env.geminiApiKey = false) :
    (∃ tag, (generateImage env p w).1 =
      [Event.orAttempt (orGenBody p), Event.orResolved tag]) ∧
    (∃ tag, (editImage env p2 w2).1 =
      [Event.orAttempt (orEditBody p2), Event.orResolved tag]) ∧
    (∀ e, orOutcome w.openrouter = Except.error e →
      (generateImage env p w).2 = Except.error (bothFailedMsg e)) := by
  have hgen : generateImage env p w = generateStep2 p w := by
    rcases generateImage_spec env p w with ⟨_, hq⟩ | ⟨hk2, _, _, _⟩ |
      ⟨hk2, _, _, _, _, _⟩ | ⟨hk2, _, _, _, _⟩
    · exact hq
    · rw [hk] at hk2; cases hk2
    · rw [hk] at hk2; cases hk2
    · rw [hk] at hk2; cases hk2
  have hedit : editImage env p2 w2 = editStep2 p2 w2 := by
    rcases editImage_spec env p2 w2 with ⟨_, hq⟩ | ⟨_, hq⟩ |
      ⟨hk2, _, _, _, _, _, _⟩ | ⟨hk2, _, _, _, _, _, _⟩ |
      ⟨hk2, _, _, _, _, _, _, _, _⟩ | ⟨hk2, _, _, _, _, _, _, _, _, _, _⟩ |
      ⟨hk2, _, _, _, _, _, _, _, _, _⟩
    · exact hq
    · exact hq
    · rw [hk] at hk2; cases hk2
    · rw [hk] at hk2; cases hk2
    · rw [hk] at hk2; cases hk2
    · rw [hk] at hk2; cases hk2
    · rw [hk] at hk2; cases hk2
  refine ⟨?_, ?_, ?_⟩
  · obtain ⟨tag, h2⟩ := generateStep2_trace p w
    exact ⟨tag, by rw [hgen, h2]⟩
  · obtain ⟨tag, h2⟩ := editStep2_trace p2 w2
    exact ⟨tag, by rw [hedit, h2]⟩
  · intro e he
    rw [hgen]
    exact generateStep2_err he

theorem orOutcome_ok {res : Except String ORResponse} {r : ORResponse} {c : ORChoice}
    {cs : List ORChoice} (hw : res = Except.ok r) (hc : r.choices = c :: cs) :
    orOutcome res = Except.ok (c.message, r.usage) := by
  rw [hw]
  unfold orOutcome
  dsimp only
  rw [hc]

theorem generateStep2_ok {p : GenParams} {w : GenWorld} {msg : ORMessage} {u : Usage}
    (h : orOutcome w.openrouter = Except.ok (msg, u)) :
    generateStep2 p w =
      ([Event.orAttempt (orGenBody p), Event.orResolved AttemptTag.success],
        Except.ok (orGenReport p msg u)) := by
  unfold generateStep2
  rw [h]

theorem editStep2_ok {p : EditParams} {w : EditWorld} {msg : ORMessage} {u : Usage}
    (h : orOutcome w.openrouter = Except.ok (msg, u)) :
    editStep2 p w =
      ([Event.orAttempt (orEditBody p), Event.orResolved AttemptTag.success],
        Except.ok (orEditReport p msg u)) := by
  unfold editStep2
  rw [h]

theorem orGenReport_empty {p : GenParams} {msg : ORMessage} {u : Usage}
    (h : msg.images.getD [] = []) :
    orGenReport p msg u =
      "**API:** OpenRouter (fallback)\n**Model:** " ++ p.model ++
        "\n**Prompt:** " ++ p.prompt ++ "\n**Response:** " ++ msg.content ++
        usageText u := by
  unfold orGenReport
  simp [h, imagesSection]

theorem orEditReport_empty {p : EditParams} {msg : ORMessage} {u : Usage}
    (h : msg.images.getD [] = []) :
    orEditReport p msg u =
      "**API:** OpenRouter (fallback)\n**Model:** " ++ p.model ++
        "\n**Instruction:** " ++ p.instruction ++
        "\n**Input Images:** " ++ toString p.images.length ++ " image(s)" ++
        "\n**Response:** " ++ msg.content ++ usageText u := by
  unfold orEditReport
  simp [h, imagesSection]

/-- Number of secondary-provider requests a trace contains. -/
def orAttemptCount (evs : List Event) : Nat := (providerTags evs).count PTag.oA

/-- If the secondary attempt appears in a generate trace, the call result is
the step-2 result and the only secondary request is the step-2 one. -/
theorem generateImage_fallback (env : Env) (p : GenParams) (w : GenWorld)
    (hmem : Event.orAttempt (orGenBody p) ∈ (generateImage env p w).1) :
    (generateImage env p w).2 = (generateStep2 p w).2 ∧
    orAttemptCount (generateImage env p w).1 = orAttemptCount (generateStep2 p w).1 := by
  rcases generateImage_spec env p w with ⟨hk, hq⟩ | ⟨hk, ge, hg, hq⟩ |
      ⟨hk, resp, d, hg, he, hq⟩ | ⟨hk, resp, hg, he, hq⟩
  · rw [hq]
    exact ⟨rfl, rfl⟩
  · rw [hq]
    exact ⟨rfl, by simp [orAttemptCount, providerTags, ptagOf]⟩
  · rw [hq] at hmem
    simp at hmem
  · rw [hq]
    exact ⟨rfl, by simp [orAttemptCount, providerTags, ptagOf]⟩

/-- If the secondary attempt appears in an edit trace, the call result is
the step-2 result and the only secondary request is the step-2 one. -/
theorem editImage_fallback (env : Env) (p : EditParams) (w : EditWorld)
    (hmem : Event.orAttempt (orEditBody p) ∈ (editImage env p w).1) :
    (editImage env p w).2 = (editStep2 p w).2 ∧
    orAttemptCount (editImage env p w).1 = orAttemptCount (editStep2 p w).1 := by
  rcases editImage_spec env p w with ⟨hi, hq⟩ | ⟨hk, hq⟩ |
      ⟨hk, i0, t, de, hi, hd, hq⟩ | ⟨hk, i0, t, hi, hd, hf, hq⟩ |
      ⟨hk, i0, t, ge, hi, hd, hf, hg, hq⟩ |
      ⟨hk, i0, t, resp, d, hi, hd, hf, hg, he, hq⟩ |
      ⟨hk, i0, t, resp, hi, hd, hf, hg, he, hq⟩
  · rw [hq]; exact ⟨rfl, rfl⟩
  · rw [hq]; exact ⟨rfl, rfl⟩
  · rw [hq]; exact ⟨rfl, rfl⟩
  · rw [hq]; exact ⟨rfl, by simp [orAttemptCount, providerTags, ptagOf]⟩
  · rw [hq]; exact ⟨rfl, by simp [orAttemptCount, providerTags, ptagOf]⟩
  · rw [hq] at hmem
    simp at hmem
  · rw [hq]; exact ⟨rfl, by simp [orAttemptCount, providerTags, ptagOf]⟩

/-- Claim C6: when the secondary attempt is made and succeeds at the
transport level with zero images (missing or empty images array), the call
does not fail and does not retry: exactly one secondary request is issued
and the result is the success report carrying the textual model response
and no generated-images section. -/
theorem claim_C6_zero_image_success (env : Env) (p : GenParams) (w : GenWorld)
    (r : ORResponse) (c : ORChoice) (cs : List ORChoice)
    (hw : w.openrouter = Except.ok r) (hc : r.choices = c :: cs)
    (himg : c.message.images.getD [] = [])
    (hmem : Event.orAttempt (orGenBody p) ∈ (generateImage env p w).1)
    (env2 : Env) (p2 : EditParams) (w2 : EditWorld)
    (r2 : ORResponse) (c2 : ORChoice) (cs2 : List ORChoice)
    (hw2 : w2.openrouter = Except.ok r2) (hc2 : r2.choices = c2 :: cs2)
    (himg2 : c2.message.images.getD [] = [])
    (hmem2 : Event.orAttempt (orEditBody p2) ∈ (editImage env2 p2 w2).1) :
    ((generateImage env p w).2 = Except.ok
      ("**API:** OpenRouter (fallback)\n**Model:** " ++ p.model ++
        "\n**Prompt:** " ++ p.prompt ++ "\n**Response:** " ++ c.message.content ++
        usageText r.usage) ∧
      orAttemptCount (generateImage env p w).1 = 1) ∧
    ((editImage env2 p2 w2).2 = Except.ok
      ("**API:** OpenRouter (fallback)\n**Model:** " ++ p2.model ++
        "\n**Instruction:** " ++ p2.instruction ++
        "\n**Input Images:** " ++ toString p2.images.length ++ " image(s)" ++
        "\n**Response:** " ++ c2.message.content ++ usageText r2.usage) ∧
      orAttemptCount (editImage env2 p2 w2).1 = 1) := by
  have hs2 := generateStep2_ok (p := p) (orOutcome_ok hw hc)
  have hs2e := editStep2_ok (p := p2) (orOutcome_ok hw2 hc2)
  obtain ⟨hres, hcnt⟩ := generateImage_fallback env p w hmem
  obtain ⟨hres2, hcnt2⟩ := editImage_fallback env2 p2 w2 hmem2
  constructor
  · constructor
    · rw [hres, hs2]
      exact congrArg Except.ok (orGenReport_empty himg)
    · rw [hcnt, hs2]
      simp [orAttemptCount, providerTags, ptagOf]
  · constructor
    · rw [hres2, hs2e]
      exact congrArg Except.ok (orEditReport_empty himg2)
    · rw [hcnt2, hs2e]
      simp [orAttemptCount, providerTags, ptagOf]

/-- World of the claim C6 witness: secondary succeeds with the images field
absent. -/
def c6GenWorld : GenWorld :=
  { gemini := Except.error ("boom"),
    openrouter := Except.ok
      { choices := [{ message := { content := "just text", images := none } }],
        usage := { prompt_tokens := 4, completion_tokens := 5, total_tokens := 9 } },
    now := 0 }

/-- The secondary response of the claim C6 witness. -/
def c6Resp : ORResponse :=
  { choices := [{ message := { content := "just text", images := none } }],
    usage := { prompt_tokens := 4, completion_tokens := 5, total_tokens := 9 } }

/-- World of the claim C6 witness for the edit call. -/
def c6EditWorld : EditWorld :=
  { download := Except.ok (), fileExists := true,
    gemini := Except.error ("boom"),
    openrouter := Except.ok c6Resp, now := 0 }

/-- Claim C6, witness instance. -/
theorem claim_C6_zero_image_success_witness :
    ((generateImage c2Env c2Params c6GenWorld).2 = Except.ok
      ("**API:** OpenRouter (fallback)\n**Model:** " ++ c2Params.model ++
        "\n**Prompt:** " ++ c2Params.prompt ++ "\n**Response:** " ++
        ({ content := "just text", images := none } : ORMessage).content ++
        usageText c6Resp.usage) ∧
      orAttemptCount (generateImage c2Env c2Params c6GenWorld).1 = 1) ∧
    ((editImage c1Env c1Params c6EditWorld).2 = Except.ok
      ("**API:** OpenRouter (fallback)\n**Model:** " ++ c1Params.model ++
        "\n**Instruction:** " ++ c1Params.instruction ++
        "\n**Input Images:** " ++ toString c1Params.images.length ++ " image(s)" ++
        "\n**Response:** " ++
        ({ content := "just text", images := none } : ORMessage).content ++
        usageText c6Resp.usage) ∧
      orAttemptCount (editImage c1Env c1Params c6EditWorld).1 = 1) :=
  claim_C6_zero_image_success c2Env c2Params c6GenWorld c6Resp
    { message := { content := "just text", images := none } } [] rfl rfl (by decide)
    (by decide)
    c1Env c1Params c6EditWorld c6Resp
    { message := { content := "just text", images := none } } [] rfl rfl (by decide)
    (by decide)

/-- Every direct-provider request an edit call issues carries the body
built from the first reference image, and every secondary request carries
the body built from the full request. -/
theorem editImage_bodies (env : Env) (p : EditParams) (w : EditWorld) (i0 : String)
    (t : List String) (h : p.images = i0 :: t) :
    (∀ b prox, Event.geminiAttempt b prox ∈ (editImage env p w).1 →
      b = geminiEditBody p.instruction i0) ∧
    (∀ b, Event.orAttempt b ∈ (editImage env p w).1 → b = orEditBody p) := by
  obtain ⟨tag, hs⟩ := editStep2_trace p w
  rcases editImage_spec env p w with ⟨hi, hq⟩ | ⟨hk, hq⟩ |
      ⟨hk, i1, t1, de, hi, hd, hq⟩ | ⟨hk, i1, t1, hi, hd, hf, hq⟩ |
      ⟨hk, i1, t1, ge, hi, hd, hf, hg, hq⟩ |
      ⟨hk, i1, t1, resp, d, hi, hd, hf, hg, he, hq⟩ |
      ⟨hk, i1, t1, resp, hi, hd, hf, hg, he, hq⟩
  · rw [hi] at h; cases h
  · constructor
    · intro b prox hm
      rw [hq, hs] at hm
      simp at hm
    · intro b hm
      rw [hq, hs] at hm
      simp at hm
      exact hm
  · constructor
    · intro b prox hm
      rw [hq, hs] at hm
      simp at hm
    · intro b hm
      rw [hq, hs] at hm
      simp at hm
      exact hm
  · constructor
    · intro b prox hm
      rw [hq, hs] at hm
      simp at hm
    · intro b hm
      rw [hq, hs] at hm
      simp at hm
      exact hm
  · have hi0 : i1 = i0 := by
      rw [h] at hi
      exact (List.cons.injEq _ _ _ _ ▸ hi).1.symm
    constructor
    · intro b prox hm
      rw [hq, hs] at hm
      simp at hm
      rw [hm.1, hi0]
    · intro b hm
      rw [hq, hs] at hm
      simp at hm
      exact hm
  · have hi0 : i1 = i0 := by
      rw [h] at hi
      exact (List.cons.injEq _ _ _ _ ▸ hi).1.symm
    constructor
    · intro b prox hm
      rw [hq] at hm
      simp at hm
      rw [hm.1, hi0]
    · intro b hm
      rw [hq] at hm
      simp at hm
  · have hi0 : i1 = i0 := by
      rw [h] at hi
      exact (List.cons.injEq _ _ _ _ ▸ hi).1.symm
    constructor
    · intro b prox hm
      rw [hq, hs] at hm
      simp at hm
      rw [hm.1, hi0]
    · intro b hm
      rw [hq, hs] at hm
      simp at hm
      exact hm

/-- Claim C7: for an edit call with more than one reference image, any
direct-provider request contains exactly one inline image part, built from
the first image only (the rest are absent from that body), while any
secondary request contains a text block with the instruction followed by
one image_url block per reference image, in order. -/
theorem claim_C7_first_image_only (env : Env) (p : EditParams) (w : EditWorld)
    (i0 i1 : String) (rest : List String) (h : p.images = i0 :: i1 :: rest) :
    (∀ b prox, Event.geminiAttempt b prox ∈ (editImage env p w).1 →
      b = geminiEditBody p.instruction i0 ∧ inlineSources b = [i0]) ∧
    (∀ b, Event.orAttempt b ∈ (editImage env p w).1 →
      b.content = ContentBlock.text p.instruction ::
        p.images.map ContentBlock.image_url) := by
  obtain ⟨hbg, hbo⟩ := editImage_bodies env p w i0 (i1 :: rest) h
  constructor
  · intro b prox hm
    have hb := hbg b prox hm
    refine ⟨hb, ?_⟩
    rw [hb]
    simp [inlineSources, geminiEditBody]
  · intro b hm
    rw [hbo b hm]
    rfl

/-- Arguments of the claim C7 witness: three reference images. -/
def c7Params : EditParams :=
  { model := "m", instruction := "merge these",
    images := ["u1", "u2", "u3"], max_tokens := 1000, save_directory := none }

/-- Claim C7, witness instance (direct attempted and failing over to the
secondary, so both request kinds occur in the trace). -/
theorem claim_C7_first_image_only_witness :
    (∀ b prox, Event.geminiAttempt b prox ∈ (editImage c1Env c7Params c6EditWorld).1 →
      b = geminiEditBody c7Params.instruction ("u1") ∧ inlineSources b = ["u1"]) ∧
    (∀ b, Event.orAttempt b ∈ (editImage c1Env c7Params c6EditWorld).1 →
      b.content = ContentBlock.text c7Params.instruction ::
        c7Params.images.map ContentBlock.image_url) :=
  claim_C7_first_image_only c1Env c7Params c6EditWorld ("u1") ("u2") (["u3"]) rfl

/-- Claim C8: per call, each provider is attempted at most once, the
provider interactions form a subsequence of direct-attempt, direct-
resolution, secondary-attempt, secondary-resolution (so the direct attempt
is initiated and resolved strictly before the secondary attempt begins and
the attempts never interleave), and whenever the direct provider is
eligible (key present; for edit also a nonempty image list with the first
image materialized), the trace begins with the direct attempt and its
resolution. -/
theorem claim_C8_ordering (env : Env) (p : GenParams) (w : GenWorld)
    (p2 : EditParams) (w2 : EditWorld) :
    List.Sublist (providerTags (generateImage env p w).1) [PTag.gA, PTag.gR, PTag.oA, PTag.oR] ∧
    List.Sublist (providerTags (editImage env p2 w2).1) [PTag.gA, PTag.gR, PTag.oA, PTag.oR] ∧
    (truthy env.geminiApiKey = true →
      (providerTags (generateImage env p w).1).take 2 = [PTag.gA, PTag.gR]) ∧
    (truthy env.geminiApiKey = true → p2.images ≠ [] →
      w2.download = Except.ok () → w2.fileExists = true →
      (providerTags (editImage env p2 w2).1).take 2 = [PTag.gA, PTag.gR]) := by
  obtain ⟨tagg, hsg⟩ := generateStep2_trace p w
  obtain ⟨tage, hse⟩ := editStep2_trace p2 w2
  refine ⟨?_, ?_, ?_, ?_⟩
  · rcases generateImage_spec env p w with ⟨hk, hq⟩ | ⟨hk, ge, hg, hq⟩ |
        ⟨hk, resp, d, hg, he, hq⟩ | ⟨hk, resp, hg, he, hq⟩ <;>
      rw [hq] <;> try rw [hsg]
    all_goals simp only [providerTags, List.filterMap_cons, List.filterMap_nil, ptagOf]
    all_goals decide
  · rcases editImage_spec env p2 w2 with ⟨hi, hq⟩ | ⟨hk, hq⟩ |
        ⟨hk, i1, t1, de, hi, hd, hq⟩ | ⟨hk, i1, t1, hi, hd, hf, hq⟩ |
        ⟨hk, i1, t1, ge, hi, hd, hf, hg, hq⟩ |
        ⟨hk, i1, t1, resp, d, hi, hd, hf, hg, he, hq⟩ |
        ⟨hk, i1, t1, resp, hi, hd, hf, hg, he, hq⟩ <;>
      rw [hq] <;> try rw [hse]
    all_goals simp only [providerTags, List.filterMap_cons, List.filterMap_nil, ptagOf]
    all_goals decide
  · intro hk
    rcases generateImage_spec env p w with ⟨hk2, hq⟩ | ⟨hk2, ge, hg, hq⟩ |
        ⟨hk2, resp, d, hg, he, hq⟩ | ⟨hk2, resp, hg, he, hq⟩
    · rw [hk] at hk2; cases hk2
    all_goals (rw [hq]; try rw [hsg])
    all_goals simp only [providerTags, List.filterMap_cons, List.filterMap_nil, ptagOf]
    all_goals decide
  · intro hk hne hdl hfe
    rcases editImage_spec env p2 w2 with ⟨hi, hq⟩ | ⟨hk2, hq⟩ |
        ⟨hk2, i1, t1, de, hi, hd, hq⟩ | ⟨hk2, i1, t1, hi, hd, hf, hq⟩ |
        ⟨hk2, i1, t1, ge, hi, hd, hf, hg, hq⟩ |
        ⟨hk2, i1, t1, resp, d, hi, hd, hf, hg, he, hq⟩ |
        ⟨hk2, i1, t1, resp, hi, hd, hf, hg, he, hq⟩
    · exact absurd hi hne
    · rw [hk] at hk2; cases hk2
    · rw [hdl] at hd; cases hd
    · rw [hfe] at hf; cases hf
    all_goals (rw [hq]; try rw [hse])
    all_goals simp only [providerTags, List.filterMap_cons, List.filterMap_nil, ptagOf]
    all_goals decide

/-- Claim C8, witness instance. -/
theorem claim_C8_ordering_witness :
    List.Sublist (providerTags (generateImage c2Env c2Params c2World).1)
      [PTag.gA, PTag.gR, PTag.oA, PTag.oR] ∧
    List.Sublist (providerTags (editImage c2Env c1Params c6EditWorld).1)
      [PTag.gA, PTag.gR, PTag.oA, PTag.oR] ∧
    (truthy c2Env.geminiApiKey = true →
      (providerTags (generateImage c2Env c2Params c2World).1).take 2 =
        [PTag.gA, PTag.gR]) ∧
    (truthy c2Env.geminiApiKey = true → c1Params.images ≠ [] →
      c6EditWorld.download = Except.ok () → c6EditWorld.fileExists = true →
      (providerTags (editImage c2Env c1Params c6EditWorld).1).take 2 =
        [PTag.gA, PTag.gR]) :=
  claim_C8_ordering c2Env c2Params c2World c1Params c6EditWorld
theorem claim_C5_amended_witness :
    (∃ tag, (generateImage c5Env c5Params c5World).1 =
      [Event.orAttempt (orGenBody c5Params), Event.orResolved tag]) ∧
    (∃ tag, (editImage c5Env c4Params c1World).1 =
      [Event.orAttempt (orEditBody c4Params), Event.orResolved tag]) ∧
    (∀ e, orOutcome c5World.openrouter = Except.error e →
      (generateImage c5Env c5Params c5World).2 = Except.error (bothFailedMsg e)) :=
  claim_C5_amended c5Env c5Params c5World c4Params c1World rfl

/-- Environment of the claim C9 counterexample: key and HTTP proxy come
from the environment. -/
def c9Env : Env :=
  { geminiApiKey := some ("env-key"), httpProxy := some ("http://env-proxy"),
    httpsProxy := none, openrouterApiKey := none }

/-- Arguments of the claim C9 counterexample: empty-string api_key and
proxy_url are supplied as call arguments. -/
def c9Params : GeminiDirectEditParams :=
  { text_prompt := "a cute cat", image_path := "in.jpg", output_path := "out.png",
    api_key := some (""), proxy_url := some ("") }

/-- Claim C9 counterexample: an api_key and a proxy_url supplied as call
arguments (here the empty string, which input validation accepts) do not
take precedence over the environment — the JS or-chains treat them as
absent, so the environment values win.  The claim that a supplied argument
always wins is therefore false. -/
theorem claim_C9_empty_argument_loses :
    c9Params.api_key = some ("") ∧
    geminiDirectEditKey c9Params c9Env = some ("env-key") ∧
    ¬ geminiDirectEditKey c9Params c9Env = c9Params.api_key ∧
    c9Params.proxy_url = some ("") ∧
    geminiDirectEditProxy c9Params c9Env = some ("http://env-proxy") ∧
    ¬ geminiDirectEditProxy c9Params c9Env = c9Params.proxy_url := by
  refine ⟨rfl, ?_, ?_, rfl, ?_, ?_⟩ <;> decide

/-- Claim C9 amended: resolution is deterministic with the fixed precedence
argument-then-environment, where a non-empty (truthy) argument always wins,
an empty-string or absent argument is ignored, and the environment fallback
for the proxy consults HTTP_PROXY before HTTPS_PROXY by the same
truthiness rule; identically for both native tools. -/
theorem claim_C9_amended (p : GeminiDirectEditParams) (q : GeminiNativeGenerateParams)
    (env : Env) :
    (truthy p.api_key = true → geminiDirectEditKey p env = p.api_key) ∧
    (truthy p.api_key = false → geminiDirectEditKey p env = env.geminiApiKey) ∧
    (truthy p.proxy_url = true → geminiDirectEditProxy p env = p.proxy_url) ∧
    (truthy p.proxy_url = false → truthy env.httpProxy = true →
      geminiDirectEditProxy p env = env.httpProxy) ∧
    (truthy p.proxy_url = false → truthy env.httpProxy = false →
      geminiDirectEditProxy p env = env.httpsProxy) ∧
    (truthy q.api_key = true → geminiNativeGenerateKey q env = q.api_key) ∧
    (truthy q.api_key = false → geminiNativeGenerateKey q env = env.geminiApiKey) ∧
    (truthy q.proxy_url = true → geminiNativeGenerateProxy q env = q.proxy_url) ∧
    (truthy q.proxy_url = false → truthy env.httpProxy = true →
      geminiNativeGenerateProxy q env = env.httpProxy) ∧
    (truthy q.proxy_url = false → truthy env.httpProxy = false →
      geminiNativeGenerateProxy q env = env.httpsProxy) := by
  unfold geminiDirectEditKey geminiDirectEditProxy geminiNativeGenerateKey
    geminiNativeGenerateProxy jsOr
  refine ⟨?_, ?_, ?_, ?_, ?_, ?_, ?_, ?_, ?_, ?_⟩ <;> intro h <;> simp [h]
  · intro h2; simp [h2]
  · intro h2; simp [h2]
  · intro h2; simp [h2]
  · intro h2; simp [h2]

/-- Arguments of the claim C9 amended witness. -/
def c9bParams : GeminiNativeGenerateParams :=
  { text_prompt := "a banana", output_path := "o.png",
    api_key := some ("arg-key"), proxy_url := none }

/-- Claim C9 amended, witness instance. -/
theorem claim_C9_amended_witness :
    (truthy c9Params.api_key = true →
      geminiDirectEditKey c9Params c9Env = c9Params.api_key) ∧
    (truthy c9Params.api_key = false →
      geminiDirectEditKey c9Params c9Env = c9Env.geminiApiKey) ∧
    (truthy c9Params.proxy_url = true →
      geminiDirectEditProxy c9Params c9Env = c9Params.proxy_url) ∧
    (truthy c9Params.proxy_url = false → truthy c9Env.httpProxy = true →
      geminiDirectEditProxy c9Params c9Env = c9Env.httpProxy) ∧
    (truthy c9Params.proxy_url = false → truthy c9Env.httpProxy = false →
      geminiDirectEditProxy c9Params c9Env = c9Env.httpsProxy) ∧
    (truthy c9bParams.api_key = true →
      geminiNativeGenerateKey c9bParams c9Env = c9bParams.api_key) ∧
    (truthy c9bParams.api_key = false →
      geminiNativeGenerateKey c9bParams c9Env = c9Env.geminiApiKey) ∧
    (truthy c9bParams.proxy_url = true →
      geminiNativeGenerateProxy c9bParams c9Env = c9bParams.proxy_url) ∧
    (truthy c9bParams.proxy_url = false → truthy c9Env.httpProxy = true →
      geminiNativeGenerateProxy c9bParams c9Env = c9Env.httpProxy) ∧
    (truthy c9bParams.proxy_url = false → truthy c9Env.httpProxy = false →
      geminiNativeGenerateProxy c9bParams c9Env = c9Env.httpsProxy) :=
  claim_C9_amended c9Params c9bParams c9Env

theorem processImage_url (d : String) (i : Nat) (img : ORImage) :
    (processImage d i img).url = imgUrlOf img := by
  unfold processImage
  split_ifs with h
  · cases hs : saveBase64Image (imgUrlOf img) d ("generated_image_" ++ toString (i + 1)) <;>
      rfl
  · rfl

theorem processImage_savedPath (d : String) (i : Nat) (img : ORImage)
    (h : (imgUrlOf img).startsWith dataImagePref = false) :
    (processImage d i img).savedPath = none := by
  unfold processImage
  rw [h]
  simp

theorem mapIdx_map_of_proj {α β γ : Type} (g : β → γ) (pr : α → γ) :
    ∀ (l : List α) (f : Nat → α → β), (∀ i a, g (f i a) = pr a) →
      (l.mapIdx f).map g = l.map pr := by
  intro l
  induction l with
  | nil => intro f hf; simp
  | cons a t ih =>
    intro f hf
    rw [List.mapIdx_cons]
    simp only [List.map_cons, hf 0 a]
    rw [ih _ (fun i x => hf _ _)]

theorem mapIdx_forall {α β : Type} (P : β → Prop) :
    ∀ (l : List α) (f : Nat → α → β), (∀ i a, P (f i a)) → ∀ s ∈ l.mapIdx f, P s := by
  intro l
  induction l with
  | nil => intro f hf s hs; simp at hs
  | cons a t ih =>
    intro f hf s hs
    rw [List.mapIdx_cons] at hs
    rcases List.mem_cons.mp hs with hs | hs
    · rw [hs]; exact hf 0 a
    · exact ih _ (fun i x => hf _ _) s hs

/-- Claim C10: the save helper handles every response image independently
(one entry per image, in order, carrying that image url, whatever the other
images look like and whether their saves fail), and an image whose url is
not an inline data-image URI is never persisted: its entry reports no
savedPath even when a save directory is supplied, and no file write happens
for it (the model performs a write exactly where a savedPath is
reported). -/
theorem claim_C10_non_data_uri_never_saved (images : List ORImage) (dir : Option String) :
    (saveResponseImages images dir).map SavedImage.url = images.map imgUrlOf ∧
    (saveResponseImages images dir).length = images.length ∧
    (∀ s ∈ saveResponseImages images dir,
      s.url.startsWith dataImagePref = false → s.savedPath = none) := by
  unfold saveResponseImages
  split_ifs with hguard
  · refine ⟨by simp, by simp, ?_⟩
    intro s hs hpre
    rcases List.mem_map.mp hs with ⟨img, _, hs2⟩
    rw [← hs2]
  · have hmap := mapIdx_map_of_proj SavedImage.url imgUrlOf images
      (fun i img => processImage (dir.getD "") i img)
      (fun i img => processImage_url (dir.getD "") i img)
    refine ⟨hmap, ?_, ?_⟩
    · simp
    · exact mapIdx_forall
        (fun s : SavedImage => s.url.startsWith dataImagePref = false → s.savedPath = none)
        images _
        (fun i img h => by
          rw [processImage_url] at h
          exact processImage_savedPath _ _ _ h)

/-- Response images of the claim C10 witness: a remote url, a malformed
data URI, a saveable data URI, and an entry with no url at all. -/
def c10Images : List ORImage :=
  [{ image_url := some { url := some ("https://example.com/a.png") } },
    { image_url := some { url := some ("data:image/png;bogus") } },
    { image_url := some { url := some ("data:image/png;base64,QUJD") } },
    { image_url := none }]

/-- Claim C10, witness instance. -/
theorem claim_C10_non_data_uri_never_saved_witness :
    (saveResponseImages c10Images (some ("out"))).map SavedImage.url =
      c10Images.map imgUrlOf ∧
    (saveResponseImages c10Images (some ("out"))).length = c10Images.length ∧
    (∀ s ∈ saveResponseImages c10Images (some ("out")),
      s.url.startsWith dataImagePref = false → s.savedPath = none) :=
  claim_C10_non_data_uri_never_saved c10Images (some ("out"))
